import Mathlib

/-!
Shallow embedding of the nihilis world-generation pipeline
(src/world/terrain_generator.py, biome_generator.py, settlement_generator.py,
name_generator.py, terrain_templates.py, world_generator.py) and proofs of the
spec's testable properties over it.

Modelling conventions:
* numpy float arrays become `Grid α := ℕ → ℕ → α`, with `α := ℚ` where the
  arithmetic is rational (so evaluation is decidable) and `α := ℝ` where the
  source applies transcendental library functions (`np.power` with fractional
  exponent, `np.sin`, `np.cos`, `np.exp`, `np.sqrt`), which are modelled by the
  corresponding real functions;
* array-level scipy/numpy algorithms that are external library code, not code
  of this repository (`gaussian_filter`, `distance_transform_edt`,
  `np.percentile`, `np.gradient`) are universally-quantified parameters;
* the seeded pseudo-random stream is modelled as a cursor `Rng` into an
  abstract family of draw values, also universally quantified: theorems about
  determinism and state restoration hold for every such family.
-/

namespace Nihilis

/-- A dense 2D grid, indexed `(row, col)` like the numpy arrays of the source. -/
def Grid (α : Type) : Type := ℕ → ℕ → α

/-- `addAt g p t` adds `t` to cell `p` of `g`, leaving every other cell unchanged
(the elementwise `+=` of the source). -/
def addAt {α : Type} [Add α] (g : Grid α) (p : ℕ × ℕ) (t : α) : Grid α :=
  fun i j => if i = p.1 ∧ j = p.2 then g i j + t else g i j

/-- Sum of a grid over the `h × w` window: the `sum(elevation)` of the spec. -/
def totalMass {α : Type} [AddCommMonoid α] (g : Grid α) (h w : ℕ) : α :=
  ∑ y ∈ Finset.range h, ∑ x ∈ Finset.range w, g y x

/-!
## Thermal erosion (`TerrainGenerator.thermal_erosion`)

One iteration visits every interior cell `(y, x)` and each of its four axis
neighbours in the order `(dx,dy) ∈ [(-1,0),(1,0),(0,-1),(0,1)]`; the height
difference is always read from the snapshot `g` of the previous iteration
while the transfers accumulate in the copy (`eroded` in the source).
-/

/-- The (cell, neighbour) pairs visited by one thermal-erosion iteration, in
source order: `y` over `range(1, height-1)`, `x` over `range(1, width-1)`, then
the four `(dx, dy)` offsets `(-1,0),(1,0),(0,-1),(0,1)` giving neighbour
`(y+dy, x+dx)`. -/
def thermalPairs (h w : ℕ) : List ((ℕ × ℕ) × (ℕ × ℕ)) :=
  (List.range (h - 2)).flatMap (fun yy =>
    (List.range (w - 2)).flatMap (fun xx =>
      [(((yy+1), (xx+1)), ((yy+1), xx)),
       (((yy+1), (xx+1)), ((yy+1), (xx+2))),
       (((yy+1), (xx+1)), (yy, (xx+1))),
       (((yy+1), (xx+1)), ((yy+2), (xx+1)))]))

/-- One neighbour visit: if the snapshot difference exceeds `min_slope`, a
quarter of it moves from the higher cell to the lower neighbour in the
accumulator. -/
def thermalTransfer {α : Type} [LinearOrderedField α] (minSlope : α) (g : Grid α)
    (acc : Grid α) (pr : (ℕ × ℕ) × (ℕ × ℕ)) : Grid α :=
  let diff := g pr.1.1 pr.1.2 - g pr.2.1 pr.2.2
  if minSlope < diff then
    addAt (addAt acc pr.1 (-(diff * (1/4)))) pr.2 (diff * (1/4))
  else acc

/-- One full thermal-erosion iteration over a grid whose numpy shape is
`(rows, cols)`.  The source binds `width, height = heightmap.shape`, so its
row loop is bounded by `cols` and its column loop by `rows`; on square grids
(the only shape the source can run without an index error) the two agree. -/
def thermalErosionStep {α : Type} [LinearOrderedField α] (minSlope : α)
    (rows cols : ℕ) (g : Grid α) : Grid α :=
  (thermalPairs cols rows).foldl (thermalTransfer minSlope g) g

/-- The five-iteration thermal pass of the source (`iterations = 5`). -/
def thermalErosionIters {α : Type} [LinearOrderedField α] (minSlope : α)
    (rows cols : ℕ) : ℕ → Grid α → Grid α
  | 0, g => g
  | n + 1, g => thermalErosionIters minSlope rows cols n (thermalErosionStep minSlope rows cols g)

def thermalErosion {α : Type} [LinearOrderedField α] (minSlope : α)
    (rows cols : ℕ) (g : Grid α) : Grid α :=
  thermalErosionIters minSlope rows cols 5 g

/-!
## Biome classification (`BiomeGenerator.assign_biomes`)
-/

/-- The enumerated biome labels of `BiomeType` in biome_generator.py. -/
inductive BiomeType : Type
  | OCEAN | SHALLOW_OCEAN | BEACH
  | TUNDRA | COLD_DESERT
  | GRASSLAND | TEMPERATE_FOREST | TEMPERATE_RAINFOREST
  | SAVANNA | DESERT | TROPICAL_RAINFOREST
  | MOUNTAIN | SNOW_PEAKS
  deriving DecidableEq, Repr

/-- `BiomeSettings` of biome_generator.py.  The three weight fields exist in the
dataclass but are not read by any of the embedded operations. -/
structure BiomeSettings (α : Type) : Type where
  temperature_weight : α
  precipitation_weight : α
  altitude_weight : α
  ocean_level : α
  mountain_level : α
  cold_thresh : α
  temperate_thresh : α
  dry_thresh : α
  wet_thresh : α
  deriving DecidableEq

/-- The per-config defaults of `BiomeSettings.from_config`. -/
def defaultBiomeSettings {α : Type} [LinearOrderedField α] : BiomeSettings α :=
  ⟨1, 1, 1, 35/100, 65/100, 3/10, 6/10, 3/10, 6/10⟩

/-- The per-cell decision chain of `assign_biomes`: ocean bands first, then
beach, then the mountain band split on the cold threshold, then temperature
crossed with precipitation. -/
def classifyBiome {α : Type} [LinearOrderedField α] (s : BiomeSettings α)
    (height_val temp_val precip_val : α) : BiomeType :=
  if height_val < s.ocean_level then
    if height_val < s.ocean_level - 1/10 then BiomeType.OCEAN
    else BiomeType.SHALLOW_OCEAN
  else if height_val < s.ocean_level + 1/20 then BiomeType.BEACH
  else if s.mountain_level < height_val then
    if temp_val < s.cold_thresh then BiomeType.SNOW_PEAKS else BiomeType.MOUNTAIN
  else if temp_val < s.cold_thresh then
    if precip_val < s.dry_thresh then BiomeType.COLD_DESERT else BiomeType.TUNDRA
  else if temp_val < s.temperate_thresh then
    if precip_val < s.dry_thresh then BiomeType.GRASSLAND
    else if precip_val < s.wet_thresh then BiomeType.TEMPERATE_FOREST
    else BiomeType.TEMPERATE_RAINFOREST
  else
    if precip_val < s.dry_thresh then BiomeType.DESERT
    else if precip_val < s.wet_thresh then BiomeType.SAVANNA
    else BiomeType.TROPICAL_RAINFOREST

/-- `assign_biomes` maps the decision chain over the co-indexed grids. -/
def assignBiomes {α : Type} [LinearOrderedField α] (s : BiomeSettings α)
    (heightmap temperature precipitation : Grid α) : Grid BiomeType :=
  fun y x => classifyBiome s (heightmap y x) (temperature y x) (precipitation y x)

/-!
## Random stream model

Every numpy generator (`np.random.RandomState(seed)`, `np.random.default_rng(seed)`)
is a cursor `⟨seed, pos⟩` into an abstract family of draw values
`drawF : ℕ → ℕ → α` (`drawF seed i` = the i-th variate of the stream seeded with
`seed`).  The family is a universally quantified parameter: the theorems about
reproducibility and state save/restore hold for every family, in particular for
the actual Mersenne-Twister / PCG64 streams.
-/

/-- The observable state of a seeded numpy generator (`bit_generator.state`):
which seed it was created from and how many variates have been consumed. -/
structure Rng : Type where
  seed : ℕ
  pos : ℕ
  deriving DecidableEq, Repr

/-- Construct a generator from a seed, cursor at the start of the stream. -/
def mkRng (seed : ℕ) : Rng := ⟨seed, 0⟩

/-- One variate from the stream. -/
def drawOne {α : Type} (drawF : ℕ → ℕ → α) (r : Rng) : α × Rng :=
  (drawF r.seed r.pos, ⟨r.seed, r.pos + 1⟩)

/-- `Generator.integers(n)` modelled as one draw reduced mod `n`. -/
def integersDraw {α : Type} [LinearOrderedField α] [FloorRing α]
    (drawF : ℕ → ℕ → α) (n : ℕ) (r : Rng) : ℕ × Rng :=
  ((Int.toNat ⌊drawF r.seed r.pos⌋) % n, ⟨r.seed, r.pos + 1⟩)

/-!
## Name synthesis (`NameGenerator`, name_generator.py)
-/

/-- `str.strip()` restricted to the space padding this pipeline produces. -/
def pyStrip (s : String) : String :=
  String.mk (((s.data.dropWhile (· = ' ')).reverse.dropWhile (· = ' ')).reverse)

/-- Helper for `pyTitle`: uppercase the first letter of each word, lowercase the
rest, tracking whether the previous character was alphabetic. -/
def titleGo : Bool → List Char → List Char
  | _, [] => []
  | prevAlpha, c :: rest =>
    if c.isAlpha then
      (if prevAlpha then c.toLower else c.toUpper) :: titleGo true rest
    else
      c :: titleGo false rest

/-- `str.title()`. -/
def pyTitle (s : String) : String := String.mk (titleGo false s.data)

/-- A probability distribution over next characters, in dict insertion order. -/
def NameDist (α : Type) : Type := List (Char × α)

/-- One Markov model: fixed-length context → distribution (dict insertion order). -/
def NameModel (α : Type) : Type := List (String × NameDist α)

/-- The in-memory `markov_models` table: model key → model. -/
def NameModels (α : Type) : Type := List (String × NameModel α)

/-- Association-list lookup standing in for a Python dict `.get`. -/
def alookup {β : Type} (l : List (String × β)) (k : String) : Option β :=
  (l.find? (fun e => e.1 == k)).map (fun e => e.2)

/-- `rng.choice(chars, p=weights)` modelled as inverse-CDF sampling of the one
drawn variate over the distribution in dict order. -/
def pickChar {α : Type} [LinearOrderedField α] : NameDist α → α → Char
  | [], _ => ' '
  | (c, p) :: rest, q => if q < p then c else pickChar rest (q - p)

/-- Result of a `generate_name` call.  `keyErr` is the `KeyError` raised by
`model[current]` on a context absent from the dict, `valErr` the
`ValueError("No default name model found")`, `noFuel` a run that has not
terminated within the given fuel; each carries the generator state at that
point. -/
inductive NameOutcome : Type
  | ok (name : String) (r : Rng)
  | keyErr (r : Rng)
  | valErr (r : Rng)
  | noFuel (r : Rng)
  deriving DecidableEq, Repr

/-- The sampling loop of `generate_name`: slide the `order`-character context,
sample the next character, stop on a space once the stripped length has reached
`min_length`, or unconditionally once the stripped length has reached
`max_length`; the returned name is `name.strip().title()`. -/
def genLoop {α : Type} [LinearOrderedField α] (drawF : ℕ → ℕ → α)
    (model : NameModel α) (order minLength maxLength : ℕ) :
    ℕ → String → Rng → NameOutcome
  | 0, _, r => NameOutcome.noFuel r
  | fuel + 1, name, r =>
    match alookup model (name.takeRight order) with
    | none => NameOutcome.keyErr r
    | some dist =>
      let q := drawF r.seed r.pos
      let r1 : Rng := ⟨r.seed, r.pos + 1⟩
      let c := pickChar dist q
      let name1 := name.push c
      if c = ' ' ∧ minLength ≤ (pyStrip name1).length then
        NameOutcome.ok (pyTitle (pyStrip name1)) r1
      else if maxLength ≤ (pyStrip name1).length then
        NameOutcome.ok (pyTitle (pyStrip name1)) r1
      else
        genLoop drawF model order minLength maxLength fuel name1 r1

/-- The model resolution of `generate_name`: take the keyed model, fall back
to the `"default"` model when the key is missing or its model is empty (a
falsy dict), and fail (`None` = the raised `ValueError`) when the default is
missing or empty too. -/
def resolveModel {α : Type} (models : NameModels α) (modelKey : String) :
    Option (NameModel α) :=
  match alookup models modelKey with
  | some m => if m.isEmpty then
      (match alookup models "default" with
       | some d => if d.isEmpty then none else some d
       | none => none)
    else some m
  | none =>
    match alookup models "default" with
    | some d => if d.isEmpty then none else some d
    | none => none

/-- The tail of `generate_name` after model resolution: `None` is the raised
`ValueError`; otherwise read the context length off the first key and run the
sampling loop from an all-space context. -/
def runNameModel {α : Type} [LinearOrderedField α] (drawF : ℕ → ℕ → α)
    (modelOpt : Option (NameModel α)) (minLength maxLength fuel : ℕ)
    (r : Rng) : NameOutcome :=
  match modelOpt with
  | none => NameOutcome.valErr r
  | some model =>
    let order := (model.head?.map (fun e => e.1.length)).getD 0
    genLoop drawF model order minLength maxLength fuel
      (String.mk (List.replicate order ' ')) r

/-- `NameGenerator.generate_name`: assemble the model key, resolve the model,
then sample. -/
def generateName {α : Type} [LinearOrderedField α] (drawF : ℕ → ℕ → α)
    (models : NameModels α) (epoch : String) (culture : Option String)
    (nameType : String) (minLength maxLength fuel : ℕ) (r : Rng) : NameOutcome :=
  let modelKey := match culture with
    | some cu => epoch ++ "_" ++ cu ++ "_" ++ nameType
    | none => epoch ++ "_" ++ nameType
  runNameModel drawF (resolveModel models modelKey) minLength maxLength fuel r

/-!
## Settlements (`SettlementGenerator`, settlement_generator.py)
-/

/-- The settlement kinds, in declaration (= placement priority) order. -/
inductive SettlementType : Type
  | CAPITAL | CITY | TOWN | VILLAGE | RUINS | DUNGEON | TEMPLE | FORTRESS
  deriving DecidableEq, Repr

/-- The per-type minimum-separation table `min_settlement_distance`. -/
def minSettlementDistance : SettlementType → ℕ
  | SettlementType.CAPITAL => 40
  | SettlementType.CITY => 20
  | SettlementType.TOWN => 10
  | SettlementType.VILLAGE => 5
  | SettlementType.RUINS => 8
  | SettlementType.DUNGEON => 12
  | SettlementType.TEMPLE => 15
  | SettlementType.FORTRESS => 18

/-- The `Settlement` dataclass. -/
structure Settlement (α : Type) : Type where
  type : SettlementType
  position : ℕ × ℕ
  name : String
  population : ℕ
  importance : α
  deriving DecidableEq, Repr

/-- `name_type_mapping` of `Settlement.generate_name`. -/
def nameTypeMapping : SettlementType → String
  | SettlementType.CAPITAL => "settlement"
  | SettlementType.CITY => "settlement"
  | SettlementType.TOWN => "settlement"
  | SettlementType.VILLAGE => "settlement"
  | SettlementType.RUINS => "ruins"
  | SettlementType.DUNGEON => "dungeon"
  | SettlementType.TEMPLE => "temple"
  | SettlementType.FORTRESS => "fortress"

/-- The `fallback_names` table (`.get(self.type, "Unknown Settlement")`; every
type is present, so the default never fires). -/
def fallbackNames : SettlementType → String
  | SettlementType.CAPITAL => "Capital City"
  | SettlementType.CITY => "Great City"
  | SettlementType.TOWN => "Small Town"
  | SettlementType.VILLAGE => "Village"
  | SettlementType.RUINS => "Ancient Ruins"
  | SettlementType.DUNGEON => "Dark Dungeon"
  | SettlementType.TEMPLE => "Holy Temple"
  | SettlementType.FORTRESS => "Mighty Fortress"

/-- `Settlement.generate_name`: call the name generator with epoch "empire" and
the type-mapped name type; catch `KeyError` and `ValueError` and substitute the
per-type fallback name.  `none` models a non-terminating sampling loop (which
Python would also never return from). -/
def settlementGenerateName {α : Type} [LinearOrderedField α] (drawF : ℕ → ℕ → α)
    (models : NameModels α) (stlType : SettlementType) (fuel : ℕ) (r : Rng) :
    Option (String × Rng) :=
  match generateName drawF models "empire" none (nameTypeMapping stlType) 3 12 fuel r with
  | NameOutcome.ok nm r1 => some (nm, r1)
  | NameOutcome.keyErr r1 => some (fallbackNames stlType, r1)
  | NameOutcome.valErr r1 => some (fallbackNames stlType, r1)
  | NameOutcome.noFuel _ => none

/-- All `(row, col)` cells of an `rows × cols` grid in row-major order (the
order `np.where` reports indices in). -/
def cellsRowMajor (rows cols : ℕ) : List (ℕ × ℕ) :=
  (List.range rows).flatMap (fun y => (List.range cols).map (fun x => (y, x)))

/-- Maximum cell value (`ndarray.max()`); 0 on an empty grid. -/
def gridMax {α : Type} [LinearOrderedField α] (g : Grid α) (rows cols : ℕ) : α :=
  ((cellsRowMajor rows cols).map (fun p => g p.1 p.2)).foldl max 0

/-- `_calculate_habitability`: base 0.5 on land (height ≥ 0.3), an
exponentially decaying water-proximity bonus on land, a 0.5 multiplier above
height 0.7, zero on water, then normalization by the maximum if positive.
`exp` (numpy) and the distance transform (scipy) are the parameters `expF` and
`distEdtF`. -/
def calcHabitability {α : Type} [LinearOrderedField α]
    (expF : α → α) (distEdtF : (ℕ → ℕ → Bool) → Grid α)
    (hm : Grid α) (rows cols : ℕ) : Grid α :=
  let landMask : ℕ → ℕ → Bool := fun y x => decide ((3/10 : α) ≤ hm y x)
  let waterMask : ℕ → ℕ → Bool := fun y x => decide (hm y x < (3/10 : α))
  let dist := distEdtF (fun y x => !(waterMask y x))
  let hab1 : Grid α := fun y x =>
    let base : α := if landMask y x then 1/2 else 0
    let withBonus : α := if landMask y x then base + expF (-(dist y x) / 5) * (1/2) else base
    let withMountain : α := if (7/10 : α) < hm y x then withBonus * (1/2) else withBonus
    if waterMask y x then 0 else withMountain
  let maxVal := gridMax hab1 rows cols
  if 0 < maxVal then (fun y x => hab1 y x / maxVal) else hab1

/-- `_is_valid_position`: reject water (height < 0.3) and any candidate whose
Euclidean distance to an existing settlement is below the larger of the two
types' minimum distances.  The source compares
`np.sqrt((y-y2)**2 + (x-x2)**2) < min_distance`; since both sides are
non-negative this is equivalent to the squared comparison used here. -/
def isValidPosition {α : Type} [LinearOrderedField α] (hm : Grid α)
    (pos : ℕ × ℕ) (stlType : SettlementType) (existing : List (Settlement α)) : Bool :=
  if hm pos.1 pos.2 < (3/10 : α) then false
  else existing.all (fun s =>
    let dy : ℤ := (pos.1 : ℤ) - (s.position.1 : ℤ)
    let dx : ℤ := (pos.2 : ℤ) - (s.position.2 : ℤ)
    let m : ℤ := max (minSettlementDistance stlType : ℤ) (minSettlementDistance s.type : ℤ)
    decide (m ^ 2 ≤ dy ^ 2 + dx ^ 2))

/-- `np.where(type_habitability >= threshold)` as a row-major candidate list. -/
def candidateCells {α : Type} [LinearOrderedField α] (hab : Grid α)
    (rows cols : ℕ) (threshold : α) : List (ℕ × ℕ) :=
  (cellsRowMajor rows cols).filter (fun p => decide (threshold ≤ hab p.1 p.2))

/-- Single-cell `*=` update (`type_habitability[pos] *= 0.5`). -/
def scaleAt {α : Type} [Mul α] (g : Grid α) (pos : ℕ × ℕ) (factor : α) : Grid α :=
  fun y x => if y = pos.1 ∧ x = pos.2 then g y x * factor else g y x

/-- The post-placement habitability suppression: a circular `ogrid` mask of
radius `minDistance[type]` is multiplied into the window
`[y_start:y_end, x_start:x_end]` as `*= (1 - mask * 0.8)`.  The source slices
the mask as `mask[:mask_height, :mask_width]`, i.e. always from its top-left
corner, which is mirrored literally here (including its misalignment when the
window is clipped at the top or left edge). -/
def suppressHabitability {α : Type} [LinearOrderedField α] (g : Grid α)
    (pos : ℕ × ℕ) (radius rows cols : ℕ) : Grid α :=
  let yStart := pos.1 - radius
  let yEnd := min rows (pos.1 + radius + 1)
  let xStart := pos.2 - radius
  let xEnd := min cols (pos.2 + radius + 1)
  fun y x =>
    if yStart ≤ y ∧ y < yEnd ∧ xStart ≤ x ∧ x < xEnd then
      let a : ℤ := (y : ℤ) - (yStart : ℤ)
      let b : ℤ := (x : ℤ) - (xStart : ℤ)
      let inCircle : Bool :=
        decide ((b - radius) ^ 2 + (a - radius) ^ 2 ≤ (radius : ℤ) ^ 2)
      g y x * (1 - (if inCircle then (8/10 : α) else 0))
    else g y x

/-- The non-grid inputs of the placement loop, bundled: the numpy percentile
routine, numpy `exp`, the scipy distance transform, the draw family, the loaded
name models and the name-loop fuel, and the grid shape. -/
structure PlacementCtx (α : Type) : Type where
  percentileF : Grid α → ℤ → α
  expF : α → α
  distEdtF : (ℕ → ℕ → Bool) → Grid α
  drawF : ℕ → ℕ → α
  models : NameModels α
  nameFuel : ℕ
  rows : ℕ
  cols : ℕ

/-- The mutable state of the placement loops: settlements so far, the
type-local habitability copy, the attempt counter, and the shared generator. -/
structure PlaceState (α : Type) : Type where
  stls : List (Settlement α)
  hab : Grid α
  attempts : ℕ
  rng : Rng

/-- One run of the `while not placed and attempts < max_attempts` loop, fuelled
by the remaining attempts.  Per iteration: increment `attempts`, compute the
percentile threshold (start 90, minus 10 per 100 failed attempts, floored at
0), list the candidate cells, `continue` if there are none, sample one
uniformly, and either accept it (validity check, name generation, append,
circular suppression, reset `attempts`) or halve its habitability and retry.
Returns `(state, placed?)`; `none` models a name-generation loop that never
terminates. -/
def placeOne {α : Type} [LinearOrderedField α] [FloorRing α]
    (ctx : PlacementCtx α) (hm : Grid α) (stlType : SettlementType) :
    ℕ → PlaceState α → Option (PlaceState α × Bool)
  | 0, st => some (st, false)
  | fuel + 1, st =>
    let attempts1 := st.attempts + 1
    let pct : ℤ := max 0 (90 - ((attempts1 / 100 : ℕ) : ℤ) * 10)
    let threshold := ctx.percentileF st.hab pct
    let cands := candidateCells st.hab ctx.rows ctx.cols threshold
    if cands.isEmpty then
      placeOne ctx hm stlType fuel { st with attempts := attempts1 }
    else
      let drawn := integersDraw ctx.drawF cands.length st.rng
      let pos := cands.getD drawn.1 (0, 0)
      if isValidPosition hm pos stlType st.stls then
        match settlementGenerateName ctx.drawF ctx.models stlType ctx.nameFuel drawn.2 with
        | none => none
        | some (nm, r2) =>
          some ({ stls := st.stls ++ [⟨stlType, pos, nm, 0, st.hab pos.1 pos.2⟩],
                  hab := suppressHabitability st.hab pos (minSettlementDistance stlType)
                    ctx.rows ctx.cols,
                  attempts := 0,
                  rng := r2 }, true)
      else
        placeOne ctx hm stlType fuel
          { stls := st.stls, hab := scaleAt st.hab pos (1/2),
            attempts := attempts1, rng := drawn.2 }

/-- The `for _ in range(count)` loop: place up to `count` settlements of one
type; a failed placement (`placed` still false) breaks out of the count loop. -/
def placeCount {α : Type} [LinearOrderedField α] [FloorRing α]
    (ctx : PlacementCtx α) (hm : Grid α) (stlType : SettlementType) :
    ℕ → PlaceState α → Option (PlaceState α)
  | 0, st => some st
  | k + 1, st =>
    match placeOne ctx hm stlType (1000 - st.attempts) st with
    | none => none
    | some (st1, true) => placeCount ctx hm stlType k st1
    | some (st1, false) => some st1

/-- The outer loop over `settlement_counts.items()`: each type starts from a
fresh copy of the original habitability field and a zero attempt counter;
settlements and the generator state thread through. -/
def placeAllTypes {α : Type} [LinearOrderedField α] [FloorRing α]
    (ctx : PlacementCtx α) (hm : Grid α) (baseHab : Grid α) :
    List (SettlementType × ℕ) → List (Settlement α) → Rng →
    Option (List (Settlement α) × Rng)
  | [], stls, rng => some (stls, rng)
  | (t, c) :: rest, stls, rng =>
    match placeCount ctx hm t c ⟨stls, baseHab, 0, rng⟩ with
    | none => none
    | some st1 => placeAllTypes ctx hm baseHab rest st1.stls st1.rng

/-- The per-type placement order and counts of `generate_settlements`
(dict insertion order of `settlement_counts`). -/
def settlementCounts (numCapitals numCities numTowns numVillages numRuins
    numDungeons numTemples numFortresses : ℕ) : List (SettlementType × ℕ) :=
  [(SettlementType.CAPITAL, numCapitals), (SettlementType.CITY, numCities),
   (SettlementType.TOWN, numTowns), (SettlementType.VILLAGE, numVillages),
   (SettlementType.RUINS, numRuins), (SettlementType.DUNGEON, numDungeons),
   (SettlementType.TEMPLE, numTemples), (SettlementType.FORTRESS, numFortresses)]

/-- `generate_settlements`: snapshot the generator state, compute habitability
(`biome_map` is received but never read), run the placement loops, and restore
the snapshotted state before returning.  `none` models a run whose name
sampling never terminates. -/
def generateSettlements {α : Type} [LinearOrderedField α] [FloorRing α]
    (ctx : PlacementCtx α) (hm : Grid α) (biomeMap : Grid BiomeType)
    (numCapitals numCities numTowns numVillages numRuins numDungeons
      numTemples numFortresses : ℕ) (rng0 : Rng) :
    Option (List (Settlement α) × Rng) :=
  let savedState := rng0
  let habitability := calcHabitability ctx.expF ctx.distEdtF hm ctx.rows ctx.cols
  let counts := settlementCounts numCapitals numCities numTowns numVillages
    numRuins numDungeons numTemples numFortresses
  (placeAllTypes ctx hm habitability counts [] rng0).map
    (fun pr => (pr.1, savedState))

/-!
## Settings and template persistence (terrain_settings.py, terrain_templates.py)
-/

/-- The `ErosionSettings` dataclass (fractional fields over `α`). -/
structure ErosionSettings (α : Type) : Type where
  droplets : ℕ
  inertia : α
  capacity : α
  deposition : α
  erosion : α
  evaporation : α
  min_slope : α
  deriving DecidableEq, Repr

/-- The `TerrainSettings` dataclass. -/
structure TerrainSettings (α : Type) : Type where
  width : ℕ
  height : ℕ
  octaves : ℕ
  persistence : α
  lacunarity : α
  scale : α
  height_power : α
  water_level : α
  land_scale : α
  seed : Option ℕ
  erosion : Option (ErosionSettings α)
  deriving DecidableEq, Repr

/-- The dictionary written by `TerrainTemplateManager.save_template` for the
`settings` key: it lists nine parameter fields and the erosion sub-dict
(`asdict` of the `ErosionSettings`, or `None`) — the `seed` field of the live
settings is not among them. -/
structure SavedSettingsDict (α : Type) : Type where
  width : ℕ
  height : ℕ
  octaves : ℕ
  persistence : α
  lacunarity : α
  scale : α
  height_power : α
  water_level : α
  land_scale : α
  erosion : Option (ErosionSettings α)
  deriving DecidableEq, Repr

/-- The full template dictionary yaml-dumped to disk. -/
structure TemplateDict (α : Type) : Type where
  name : String
  description : String
  settings : SavedSettingsDict α
  deriving DecidableEq, Repr

/-- The `TerrainTemplate` dataclass. -/
structure TerrainTemplate (α : Type) : Type where
  name : String
  description : String
  settings : TerrainSettings α
  deriving DecidableEq, Repr

/-- `save_template` up to the yaml/file layer (an external library assumed to
round-trip the dictionary faithfully): build the dictionary that is dumped. -/
def saveTemplateDict {α : Type} (name description : String)
    (s : TerrainSettings α) : TemplateDict α :=
  { name := name
    description := description
    settings :=
      { width := s.width, height := s.height, octaves := s.octaves
        persistence := s.persistence, lacunarity := s.lacunarity, scale := s.scale
        height_power := s.height_power, water_level := s.water_level
        land_scale := s.land_scale, erosion := s.erosion } }

/-- `load_templates` applied to one parsed dictionary: rebuild the erosion
sub-settings when present, then `TerrainSettings(**settings_dict)`; the dict
has no `seed` key, so the dataclass default `seed=None` applies. -/
def loadTemplateDict {α : Type} (d : TemplateDict α) : TerrainTemplate α :=
  { name := d.name
    description := d.description
    settings :=
      { width := d.settings.width, height := d.settings.height
        octaves := d.settings.octaves, persistence := d.settings.persistence
        lacunarity := d.settings.lacunarity, scale := d.settings.scale
        height_power := d.settings.height_power, water_level := d.settings.water_level
        land_scale := d.settings.land_scale
        seed := none
        erosion := d.settings.erosion } }

/-!
## Fractal heightmap synthesis (`TerrainGenerator`, terrain_generator.py)

Real-valued: `np.power` with fractional exponent, `np.sin`/`np.cos`,
`np.sqrt` become the corresponding real functions; `gaussian_filter` and
`np.gradient` are scipy/numpy library routines and appear as parameters.
-/

/-- Python `int()`: truncation toward zero. -/
noncomputable def pyInt (x : ℝ) : ℤ := if 0 ≤ x then ⌊x⌋ else ⌈x⌉

/-- `np.linspace(a, b, num)` (endpoint included) evaluated at index `i`. -/
noncomputable def linspace (a b : ℝ) (num : ℕ) (i : ℕ) : ℝ :=
  a + (b - a) * i / ((num : ℝ) - 1)

/-- `_fade`, Ken Perlin's improved smoothstep. -/
def fade (t : ℝ) : ℝ := t * t * t * (t * (t * 6 - 15) + 10)

/-- `_lerp`. -/
def lerp (a b t : ℝ) : ℝ := a + t * (b - a)

/-- `_generate_gradients`: draw `gh*gw` uniform angles from the seeded
RandomState stream (the draw family `uniformFam` yields the angle values) and
turn them into unit vectors; the cursor advances by `gh*gw`. -/
noncomputable def octaveGradients (uniformFam : ℕ → ℕ → ℝ) (r : Rng)
    (gh gw : ℕ) : (ℕ → ℕ → ℝ × ℝ) × Rng :=
  (fun i j =>
    let angle := uniformFam r.seed (r.pos + i * gw + j)
    (Real.cos angle, Real.sin angle),
   ⟨r.seed, r.pos + gh * gw⟩)

/-- The per-cell interpolation of `_generate_octave`: clip the surrounding
grid-cell corners, take the dot product of each corner gradient with the
distance vector, and smoothstep-interpolate along x then y. -/
noncomputable def octaveNoise (grads : ℕ → ℕ → ℝ × ℝ) (gh gw rows cols : ℕ) :
    Grid ℝ :=
  fun i j =>
    let yg := linspace 0 ((gh : ℝ) - 1) rows i
    let xg := linspace 0 ((gw : ℝ) - 1) cols j
    let x0 : ℤ := min (max ⌊xg⌋ 0) ((gw : ℤ) - 2)
    let x1 : ℤ := min (max (⌊xg⌋ + 1) 0) ((gw : ℤ) - 1)
    let y0 : ℤ := min (max ⌊yg⌋ 0) ((gh : ℤ) - 2)
    let y1 : ℤ := min (max (⌊yg⌋ + 1) 0) ((gh : ℤ) - 1)
    let xfrac := xg - (x0 : ℝ)
    let yfrac := yg - (y0 : ℝ)
    let dotG : ℤ → ℤ → ℝ := fun ix iy =>
      let gv := grads (Int.toNat iy) (Int.toNat ix)
      (xg - (ix : ℝ)) * gv.1 + (yg - (iy : ℝ)) * gv.2
    let fx := fade xfrac
    let fy := fade yfrac
    lerp (lerp (dotG x0 y0) (dotG x1 y0) fx) (lerp (dotG x0 y1) (dotG x1 y1) fx) fy

/-- `_generate_octave`: grid resolution from `size * frequency / scale`, fresh
gradients from the stream, then the interpolated noise field. -/
noncomputable def octaveAt (uniformFam : ℕ → ℕ → ℝ) (ts : TerrainSettings ℝ)
    (frequency : ℝ) (r : Rng) : Grid ℝ × Rng :=
  let gh := (pyInt ((ts.height : ℝ) * frequency / ts.scale)).toNat + 1
  let gw := (pyInt ((ts.width : ℝ) * frequency / ts.scale)).toNat + 1
  let gr := octaveGradients uniformFam r gh gw
  (octaveNoise gr.1 gh gw ts.height ts.width, gr.2)

/-- The octave summation loop of `generate_heightmap`: per octave add
`noise * amplitude`, accumulate `max_value`, multiply frequency by lacunarity
and amplitude by persistence.  Returns the unnormalized sum, the cumulative
amplitude and the advanced stream. -/
noncomputable def octaveLoop (uniformFam : ℕ → ℕ → ℝ) (ts : TerrainSettings ℝ) :
    ℕ → Grid ℝ → ℝ → ℝ → ℝ → Rng → (Grid ℝ × ℝ × Rng)
  | 0, hm, _, _, maxValue, r => (hm, maxValue, r)
  | i + 1, hm, amplitude, frequency, maxValue, r =>
    let oc := octaveAt uniformFam ts frequency r
    octaveLoop uniformFam ts i (fun y x => hm y x + oc.1 y x * amplitude)
      (amplitude * ts.persistence) (frequency * ts.lacunarity)
      (maxValue + amplitude) oc.2

/-- `_redistribute_heights`, pointwise: shift `[-1,1]` to `[0,1]`, apply the
1.1 power curve, then rescale the three elevation bands — lowlands (< 0.35)
by 0.9, hills by 1.1 around 0.35, mountains (≥ 0.65) by 1.2 around 0.65.
No clamping is applied afterwards. -/
noncomputable def redistributeHeight (h : ℝ) : ℝ :=
  let shifted := (h + 1) * (5/10)
  let powed := shifted ^ (1.1 : ℝ)
  if powed < 35/100 then powed * (9/10)
  else if powed < 65/100 then 35/100 + (powed - 35/100) * (11/10)
  else 65/100 + (powed - 65/100) * (12/10)

noncomputable def redistributeGrid (g : Grid ℝ) : Grid ℝ :=
  fun y x => redistributeHeight (g y x)

/-- `_smooth_terrain`: slope magnitudes from `np.gradient` (parameter `gradF`,
returning `(gy, gx)`), a Gaussian-blurred copy (parameter `gaussianF`), and a
slope-proportional blend clamped to `[0.2, 0.8]`. -/
noncomputable def smoothTerrain (gaussianF : Grid ℝ → Grid ℝ)
    (gradF : Grid ℝ → Grid ℝ × Grid ℝ) (hm : Grid ℝ) : Grid ℝ :=
  let gg := gradF hm
  let smoothed := gaussianF hm
  fun y x =>
    let slope := Real.sqrt ((gg.2 y x) ^ 2 + (gg.1 y x) ^ 2)
    let blend := min (max (slope * 3) (2/10)) (8/10)
    hm y x * (1 - blend) + smoothed y x * blend

/-- `generate_heightmap`: the FIRST statement re-seeds the stream
(`self.rng = np.random.RandomState(self.settings.seed)`), so the incoming
generator state `r` is discarded; `entropy` stands for the OS entropy a
`RandomState(None)` would consume when `seed` is absent.  Then the octave sum
is normalized by the cumulative amplitude, redistributed and smoothed. -/
noncomputable def generateHeightmap (uniformFam : ℕ → ℕ → ℝ)
    (gaussianF : Grid ℝ → Grid ℝ) (gradF : Grid ℝ → Grid ℝ × Grid ℝ)
    (ts : TerrainSettings ℝ) (entropy : ℕ) (r : Rng) : Grid ℝ × Rng :=
  let r0 := mkRng (ts.seed.getD entropy)
  let res := octaveLoop uniformFam ts ts.octaves (fun _ _ => 0) 1 1 0 r0
  let normalized : Grid ℝ := fun y x => res.1 y x / res.2.1
  (smoothTerrain gaussianF gradF (redistributeGrid normalized), res.2.2)

/-!
## Hydraulic erosion (`TerrainGenerator.hydraulic_erosion`)

The source binds `width, height = heightmap.shape` (numpy shape is
`(rows, cols)`), so `width` names the row count; the translation keeps that
binding literally.
-/

/-- `_sample_height`: bilinear interpolation with corner indices clamped into
the grid; the weights use the clamped `x0`/`y0`. -/
noncomputable def sampleHeight (hm : Grid ℝ) (rows cols : ℕ) (x y : ℝ) : ℝ :=
  let x0 : ℤ := max 0 (min (pyInt x) ((cols : ℤ) - 1))
  let x1 : ℤ := max 0 (min (pyInt x + 1) ((cols : ℤ) - 1))
  let y0 : ℤ := max 0 (min (pyInt y) ((rows : ℤ) - 1))
  let y1 : ℤ := max 0 (min (pyInt y + 1) ((rows : ℤ) - 1))
  let wx := x - (x0 : ℝ)
  let wy := y - (y0 : ℝ)
  hm (Int.toNat y0) (Int.toNat x0) * (1 - wx) * (1 - wy) +
  hm (Int.toNat y0) (Int.toNat x1) * wx * (1 - wy) +
  hm (Int.toNat y1) (Int.toNat x0) * (1 - wx) * wy +
  hm (Int.toNat y1) (Int.toNat x1) * wx * wy

/-- `_calculate_gradient` via central differences of bilinear samples. -/
noncomputable def calcGradient (hm : Grid ℝ) (rows cols : ℕ) (x y : ℝ) : ℝ × ℝ :=
  ((sampleHeight hm rows cols (x + 1) y - sampleHeight hm rows cols (x - 1) y) * (5/10),
   (sampleHeight hm rows cols x (y + 1) - sampleHeight hm rows cols x (y - 1)) * (5/10))

/-- `_deposit`: bilinear splat of `amount` onto the four surrounding cells
(no clamping — the caller's bounds check keeps the corners inside). -/
noncomputable def depositSplat (hm : Grid ℝ) (x y amount : ℝ) : Grid ℝ :=
  let x0 := pyInt x
  let y0 := pyInt y
  let wx := x - (x0 : ℝ)
  let wy := y - (y0 : ℝ)
  addAt (addAt (addAt (addAt hm
    (Int.toNat y0, Int.toNat x0) (amount * (1 - wx) * (1 - wy)))
    (Int.toNat y0, Int.toNat (x0 + 1)) (amount * wx * (1 - wy)))
    (Int.toNat (y0 + 1), Int.toNat x0) (amount * (1 - wx) * wy))
    (Int.toNat (y0 + 1), Int.toNat (x0 + 1)) (amount * wx * wy)

/-- The 30-step droplet lifetime loop: gradient, inertia-blended and
normalized velocity, advance one unit step, exit on leaving the grid, then
deposit surplus sediment or erode up to the capacity gap, and evaporate. -/
noncomputable def dropletLoop (es : ErosionSettings ℝ) (rows cols : ℕ) :
    ℕ → ℝ → ℝ → ℝ → ℝ → ℝ → ℝ → Grid ℝ → Grid ℝ
  | 0, _, _, _, _, _, _, hm => hm
  | n + 1, x, y, water, sx, sy, sediment, hm =>
    let w := rows
    let h := cols
    let cellx := pyInt x
    let celly := pyInt y
    if ¬ (0 ≤ cellx ∧ cellx < (w : ℤ) - 1 ∧ 0 ≤ celly ∧ celly < (h : ℤ) - 1) then hm
    else
      let grad := calcGradient hm rows cols x y
      let heightOld := sampleHeight hm rows cols x y
      let sx1 := sx * es.inertia - grad.1 * (1 - es.inertia)
      let sy1 := sy * es.inertia - grad.2 * (1 - es.inertia)
      let len := Real.sqrt (sx1 ^ 2 + sy1 ^ 2)
      let sx2 := if len = 0 then sx1 else sx1 / len
      let sy2 := if len = 0 then sy1 else sy1 / len
      let x1 := x + sx2
      let y1 := y + sy2
      if ¬ (0 ≤ x1 ∧ x1 < (w : ℝ) - 1 ∧ 0 ≤ y1 ∧ y1 < (h : ℝ) - 1) then hm
      else
        let heightNew := sampleHeight hm rows cols x1 y1
        let dh := heightNew - heightOld
        let capacity := max (-dh * len * water * es.capacity) (1/100)
        if capacity < sediment then
          let amount := (sediment - capacity) * es.deposition
          dropletLoop es rows cols n x1 y1 (water * (1 - es.evaporation)) sx2 sy2
            (sediment - amount) (depositSplat hm x1 y1 amount)
        else
          let amount := min ((capacity - sediment) * es.erosion) (-dh)
          dropletLoop es rows cols n x1 y1 (water * (1 - es.evaporation)) sx2 sy2
            (sediment + amount) (depositSplat hm x1 y1 (-amount))

/-- The droplet loop of `hydraulic_erosion`: each droplet starts at a random
sub-cell position (two stream draws), unit water, zero velocity and sediment,
and lives at most 30 steps. -/
noncomputable def hydraulicDroplets (randFam : ℕ → ℕ → ℝ) (es : ErosionSettings ℝ)
    (rows cols : ℕ) : ℕ → Grid ℝ → Rng → Grid ℝ × Rng
  | 0, hm, r => (hm, r)
  | d + 1, hm, r =>
    let x := randFam r.seed r.pos * ((rows : ℝ) - 1)
    let y := randFam r.seed (r.pos + 1) * ((cols : ℝ) - 1)
    let r1 : Rng := ⟨r.seed, r.pos + 2⟩
    hydraulicDroplets randFam es rows cols d
      (dropletLoop es rows cols 30 x y 1 0 0 0 hm) r1

/-- `hydraulic_erosion` (no-op when erosion settings are absent). -/
noncomputable def hydraulicErosion (randFam : ℕ → ℕ → ℝ)
    (eso : Option (ErosionSettings ℝ)) (rows cols : ℕ) (hm : Grid ℝ) (r : Rng) :
    Grid ℝ × Rng :=
  match eso with
  | none => (hm, r)
  | some es => hydraulicDroplets randFam es rows cols es.droplets hm r

/-- `apply_erosion`: hydraulic pass then the five thermal iterations; the
whole stage is skipped when no erosion settings are present. -/
noncomputable def applyErosion (randFam : ℕ → ℕ → ℝ) (ts : TerrainSettings ℝ)
    (hm : Grid ℝ) (r : Rng) : Grid ℝ × Rng :=
  match ts.erosion with
  | none => (hm, r)
  | some es =>
    let hy := hydraulicErosion randFam (some es) ts.height ts.width hm r
    (thermalErosion es.min_slope ts.height ts.width hy.1, hy.2)

/-!
## Climate synthesis (`BiomeGenerator`, biome_generator.py)
-/

/-- `generate_temperature_map`: a fresh `default_rng(seed)` stream
(`normalFam` yields its normal variates), a latitude gradient
`1.2 - |y|^0.75`, sinusoidal continental/regional perturbations, local noise,
a weighted sum, and a final clip to `[0, 1.2]`. -/
noncomputable def temperatureMap (normalFam : ℕ → ℕ → ℝ) (height width : ℕ)
    (seed : Option ℕ) (entropy : ℕ) : Grid ℝ :=
  let rs := seed.getD entropy
  fun i j =>
    let yv := linspace (-1) 1 height i
    let baseTemp := 12/10 - |yv| ^ (0.75 : ℝ)
    let bigX := linspace 0 (4 * Real.pi) width j
    let bigY := linspace 0 (4 * Real.pi) height i
    let continental := 4/10 * Real.sin (bigX / 3) * Real.cos (bigY / 3)
    let regional := 2/10 * Real.sin bigX * Real.cos bigY
    let localNoise := 1/10 * normalFam rs (i * width + j)
    let temperature := 5/10 * baseTemp + 25/100 * continental +
      15/100 * regional + 1/10 * localNoise
    min (max temperature 0) (12/10)

/-- `generate_precipitation_map`: normalized distance-to-water (scipy
distance transform as `distEdtF`), a sinusoidal monsoon pattern, normalized
`np.gradient` slopes, a rolled rain-shadow copy, local noise; the weighted sum
is floored at 0, raised to the 0.8 power twice, and clipped to `[0, 1]`. -/
noncomputable def precipitationMap (normalFam : ℕ → ℕ → ℝ)
    (distEdtF : (ℕ → ℕ → Bool) → Grid ℝ) (gradF : Grid ℝ → Grid ℝ × Grid ℝ)
    (s : BiomeSettings ℝ) (hm : Grid ℝ) (height width : ℕ)
    (seed : Option ℕ) (entropy : ℕ) : Grid ℝ :=
  let rs := seed.getD entropy
  let waterMask : ℕ → ℕ → Bool := fun y x => decide (hm y x < s.ocean_level)
  let dist := distEdtF (fun y x => !(waterMask y x))
  let dmax := gridMax dist height width
  let gg := gradF hm
  let slopes0 : Grid ℝ := fun y x => |gg.1 y x| + |gg.2 y x|
  let smax := gridMax slopes0 height width
  let slopes : Grid ℝ := fun y x => slopes0 y x / smax
  let shift := width / 8
  let rainShadow : Grid ℝ := fun y x =>
    slopes y (Int.toNat (((x : ℤ) - (shift : ℤ)) % (width : ℤ)))
  fun y x =>
    let bigX := linspace 0 (6 * Real.pi) width x
    let bigY := linspace 0 (6 * Real.pi) height y
    let monsoon := 5/10 * (Real.sin (bigX / 4) + Real.cos (bigY / 4))
    let p0 := 2/10 * (1 - dist y x / dmax) + 3/10 * monsoon + 3/10 * slopes y x +
      1/10 * (1 - rainShadow y x) + 1/10 * normalFam rs (y * width + x)
    let p1 := max p0 0
    let p2 := (p1 ^ (0.8 : ℝ)) ^ (0.8 : ℝ)
    min (max p2 0) 1

/-!
## World assembly (`WorldGenerator.generate`, world_generator.py)
-/

/-- `WorldSettings` after `WorldGenerator.__init__`: a missing seed has
already been replaced by a random one there (`np.random.randint`), so by the
time `generate` runs the seed is a fixed integer and the
`if self.settings.seed is not None` reset branch always executes. -/
structure WorldSettingsR : Type where
  width : ℕ
  height : ℕ
  seed : ℕ
  terrain : TerrainSettings ℝ

/-- The mutable generator state of the `WorldGenerator` object: its own RNG
and the RNGs of the terrain and biome sub-generators. -/
structure GenState : Type where
  mainRng : Rng
  terrainRng : Rng
  biomeRng : Rng
  deriving DecidableEq

/-- The generated `World` artifact (the dict-valued bookkeeping fields
`regions`/`landmarks`/`history` stay empty and are omitted). -/
structure WorldR : Type where
  heightmap : Grid ℝ
  biomeMap : Grid BiomeType
  settlements : List (Settlement ℝ)
  discoveryMask : Grid Bool

/-- Line 113 of world_generator.py:
`world.discovery_mask = np.ones((height, width), dtype=bool)` — every cell of
the freshly created mask holds `True`. -/
def discoveryMaskInit (height width : ℕ) : Grid Bool := fun _ _ => true

/-- `WorldGenerator.generate`: reset the main, terrain and biome RNGs from the
run seed, synthesize the heightmap (which re-seeds the terrain stream itself),
erode if configured, derive climate from the seed, classify biomes, create the
discovery mask, and generate settlements from the freshly reset main RNG.
The incoming generator state is never read before the resets.  `none` models a
run whose name sampling never terminates. -/
noncomputable def worldGenerate (uniformFam randFam normalFam mainDrawF : ℕ → ℕ → ℝ)
    (gaussianF : Grid ℝ → Grid ℝ) (gradF : Grid ℝ → Grid ℝ × Grid ℝ)
    (distEdtF : (ℕ → ℕ → Bool) → Grid ℝ) (percentileF : Grid ℝ → ℤ → ℝ)
    (bs : BiomeSettings ℝ) (models : NameModels ℝ) (nameFuel : ℕ)
    (ws : WorldSettingsR) (st : GenState) : Option (WorldR × GenState) :=
  let mainRng := mkRng ws.seed
  let ts : TerrainSettings ℝ := { ws.terrain with seed := some ws.seed }
  let terrainRng := mkRng ws.seed
  let biomeRng := mkRng ws.seed
  let hmRes := generateHeightmap uniformFam gaussianF gradF ts 0 terrainRng
  let erosionRes := match ts.erosion with
    | some _ => applyErosion randFam ts hmRes.1 hmRes.2
    | none => hmRes
  let heightmap := erosionRes.1
  let temperature := temperatureMap normalFam ws.height ws.width (some ws.seed) 0
  let precipitation := precipitationMap normalFam distEdtF gradF bs heightmap
    ws.height ws.width (some ws.seed) 0
  let biomeMap := assignBiomes bs heightmap temperature precipitation
  let discoveryMask := discoveryMaskInit ws.height ws.width
  let ctx : PlacementCtx ℝ :=
    ⟨percentileF, Real.exp, distEdtF, mainDrawF, models, nameFuel, ws.height, ws.width⟩
  match generateSettlements ctx heightmap biomeMap 1 3 5 30 10 8 6 4 mainRng with
  | none => none
  | some (stls, mainRng1) =>
    some ({ heightmap := heightmap, biomeMap := biomeMap, settlements := stls,
            discoveryMask := discoveryMask },
          { mainRng := mainRng1, terrainRng := erosionRes.2, biomeRng := biomeRng })

/-- The separation invariant between two settlements, in integer-squared form
(equivalent to `sqrt d2 ≥ max(minDist, minDist)` since both sides are
non-negative). -/
def separatedSq {α : Type} (s1 s2 : Settlement α) : Prop :=
  ((max (minSettlementDistance s1.type) (minSettlementDistance s2.type) : ℤ)) ^ 2 ≤
    ((s1.position.1 : ℤ) - (s2.position.1 : ℤ)) ^ 2 +
    ((s1.position.2 : ℤ) - (s2.position.2 : ℤ)) ^ 2

/-- Every pair of distinct settlements in the list is separated. -/
def wellSeparated {α : Type} (l : List (Settlement α)) : Prop :=
  ∀ s1 ∈ l, ∀ s2 ∈ l, s1 ≠ s2 → separatedSq s1 s2

/-!
## Concrete instances used to exercise the embedded operations
-/

/-- The name model the source would build from a corpus containing the single
training name "a  b" (with an interior double space): the contexts of the
space-padded training string in first-seen order, each with its next-character
distribution. -/
def corpusModelAB : NameModels ℚ :=
  [("empire_settlement",
    [("  ", [('a', mkRat 1 2), ('b', mkRat 1 2)]),
     (" a", [(' ', 1)]),
     ("a ", [(' ', 1)]),
     (" b", [(' ', 1)])])]

/-- A draw family that picks 'a' from the start context and 'b' on the fourth
draw. -/
def drawPicksAB : ℕ → ℕ → ℚ := fun _ pos => if pos = 3 then mkRat 3 5 else 0

/-- A placement context over an all-land 1 × 6 strip: constant-zero percentile
threshold, zero water-proximity bonus, no name models, and a draw family whose
second draw selects candidate index 5. -/
def villageStripCtx : PlacementCtx ℚ :=
  { percentileF := fun _ _ => 0
    expF := fun _ => 0
    distEdtF := fun _ => fun _ _ => 0
    drawF := fun _ pos => if pos = 1 then 5 else 0
    models := []
    nameFuel := 0
    rows := 1
    cols := 6 }

/-- The all-land heightmap of the 1 × 6 strip. -/
def villageStripHeightmap : Grid ℚ := fun _ _ => mkRat 1 2

/-- An arbitrary biome map (settlement generation never reads it). -/
def grasslandEverywhere : Grid BiomeType := fun _ _ => BiomeType.GRASSLAND

/-- The settlement list the 1 × 6 strip run produces: two villages exactly five
cells apart. -/
def villageStripResult : List (Settlement ℚ) :=
  [⟨SettlementType.VILLAGE, (0, 0), "Village", 0, 1⟩,
   ⟨SettlementType.VILLAGE, (0, 5), "Village", 0, mkRat 1 5⟩]

/-- A small seeded terrain-settings bundle over ℝ. -/
noncomputable def seededTerrainSettings : TerrainSettings ℝ :=
  ⟨4, 4, 2, 1/2, 2, 100, 12/10, 4/10, 3/10, some 9, none⟩

/-- World settings wrapping `seededTerrainSettings`. -/
noncomputable def seededWorldSettings : WorldSettingsR :=
  ⟨4, 4, 9, seededTerrainSettings⟩

/-!
## Theorems

General lemmas first, then one theorem per specification claim (with witness
or counterexample theorems where applicable).
-/

theorem addAt_apply {α : Type} [AddZeroClass α] (g : Grid α) (p : ℕ × ℕ) (t : α) (y x : ℕ) :
    addAt g p t y x = g y x + if y = p.1 ∧ x = p.2 then t else 0 := by
  by_cases hc : y = p.1 ∧ x = p.2 <;> simp [addAt, hc]

theorem totalMass_addAt {α : Type} [AddCommMonoid α] (g : Grid α) (p : ℕ × ℕ) (t : α)
    {h w : ℕ} (hp : p.1 < h) (hq : p.2 < w) :
    totalMass (addAt g p t) h w = totalMass g h w + t := by
  unfold totalMass
  have hrw : ∀ y x : ℕ, addAt g p t y x = g y x + if y = p.1 ∧ x = p.2 then t else 0 :=
    addAt_apply g p t
  simp only [hrw, Finset.sum_add_distrib]
  congr 1
  have hx : ∀ y : ℕ, (∑ x ∈ Finset.range w, if y = p.1 ∧ x = p.2 then t else 0)
      = if y = p.1 then t else 0 := by
    intro y
    by_cases hy : y = p.1
    · simp only [hy, true_and, if_pos rfl]
      rw [Finset.sum_ite_eq' (Finset.range w) p.2 (fun _ => t)]
      simp [Finset.mem_range.mpr hq]
    · simp [hy]
  simp only [hx]
  rw [Finset.sum_ite_eq' (Finset.range h) p.1 (fun _ => t)]
  simp [Finset.mem_range.mpr hp]

theorem thermalPairs_bounds {h w : ℕ} :
    ∀ pr ∈ thermalPairs h w, pr.1.1 < h ∧ pr.1.2 < w ∧ pr.2.1 < h ∧ pr.2.2 < w := by
  intro pr hpr
  simp only [thermalPairs, List.mem_flatMap, List.mem_range] at hpr
  obtain ⟨yy, hyy, xx, hxx, hmem⟩ := hpr
  simp only [List.mem_cons, List.not_mem_nil, or_false] at hmem
  rcases hmem with h1 | h1 | h1 | h1 <;> subst h1 <;> refine ⟨?_, ?_, ?_, ?_⟩ <;> simp <;> omega

theorem totalMass_thermalTransfer_fold {α : Type} [LinearOrderedField α]
    (minSlope : α) (g : Grid α) {h w : ℕ} :
    ∀ (ps : List ((ℕ × ℕ) × (ℕ × ℕ))) (acc : Grid α),
      (∀ pr ∈ ps, pr.1.1 < h ∧ pr.1.2 < w ∧ pr.2.1 < h ∧ pr.2.2 < w) →
      totalMass (ps.foldl (thermalTransfer minSlope g) acc) h w = totalMass acc h w := by
  intro ps
  induction ps with
  | nil => intro acc _; rfl
  | cons pr rest ih =>
    intro acc hbnd
    have hpr := hbnd pr (List.mem_cons_self pr rest)
    have hrest : ∀ q ∈ rest, q.1.1 < h ∧ q.1.2 < w ∧ q.2.1 < h ∧ q.2.2 < w :=
      fun q hq => hbnd q (List.mem_cons_of_mem pr hq)
    rw [List.foldl_cons, ih _ hrest]
    unfold thermalTransfer
    by_cases hc : minSlope < g pr.1.1 pr.1.2 - g pr.2.1 pr.2.2
    · simp only [if_pos hc]
      rw [totalMass_addAt _ _ _ hpr.2.2.1 hpr.2.2.2,
          totalMass_addAt _ _ _ hpr.1 hpr.2.1]
      ring
    · simp only [if_neg hc]

/-- Claim C3: for every heightmap and every erosion-settings bundle, one
iteration of thermal erosion conserves total elevation mass — the sum over all
cells after the iteration equals the sum before it (hence in particular agrees
to within 1e-9 relative tolerance), because every transfer is computed against
the snapshot of the previous iteration's heights and subtracts from the higher
cell exactly what it adds to the lower neighbour. -/
theorem nihilis_c3_thermal_mass_conservation (minSlope : ℚ) (n : ℕ) (g : Grid ℚ) :
    totalMass (thermalErosionStep minSlope n n g) n n = totalMass g n n ∧
    |totalMass (thermalErosionStep minSlope n n g) n n - totalMass g n n| ≤
      (1 / 10 ^ 9) * |totalMass g n n| := by
  have heq : totalMass (thermalErosionStep minSlope n n g) n n = totalMass g n n := by
    unfold thermalErosionStep
    exact totalMass_thermalTransfer_fold minSlope g (thermalPairs n n) g thermalPairs_bounds
  refine ⟨heq, ?_⟩
  rw [heq, sub_self, abs_zero]
  positivity

set_option maxHeartbeats 1000000 in
/-- Claim C5: the biome classifier is a total function into the enumerated
biome set that follows exactly the documented precedence: deep ocean below
`ocean_level - 0.1`, shallow ocean below `ocean_level`, beach below
`ocean_level + 0.05`, snow peaks or bare mountain above `mountain_level`
split on the cold threshold, then the temperature band crossed with the
precipitation band; no triple is left unclassified. -/
theorem nihilis_c5_classification (s : BiomeSettings ℚ) (h t p : ℚ) :
    (classifyBiome s h t p ∈
      [BiomeType.OCEAN, BiomeType.SHALLOW_OCEAN, BiomeType.BEACH, BiomeType.TUNDRA,
       BiomeType.COLD_DESERT, BiomeType.GRASSLAND, BiomeType.TEMPERATE_FOREST,
       BiomeType.TEMPERATE_RAINFOREST, BiomeType.SAVANNA, BiomeType.DESERT,
       BiomeType.TROPICAL_RAINFOREST, BiomeType.MOUNTAIN, BiomeType.SNOW_PEAKS]) ∧
    (h < s.ocean_level - 1/10 → classifyBiome s h t p = BiomeType.OCEAN) ∧
    (s.ocean_level - 1/10 ≤ h → h < s.ocean_level →
      classifyBiome s h t p = BiomeType.SHALLOW_OCEAN) ∧
    (s.ocean_level ≤ h → h < s.ocean_level + 1/20 →
      classifyBiome s h t p = BiomeType.BEACH) ∧
    (s.ocean_level + 1/20 ≤ h → s.mountain_level < h → t < s.cold_thresh →
      classifyBiome s h t p = BiomeType.SNOW_PEAKS) ∧
    (s.ocean_level + 1/20 ≤ h → s.mountain_level < h → s.cold_thresh ≤ t →
      classifyBiome s h t p = BiomeType.MOUNTAIN) ∧
    (s.ocean_level + 1/20 ≤ h → h ≤ s.mountain_level → t < s.cold_thresh →
      p < s.dry_thresh → classifyBiome s h t p = BiomeType.COLD_DESERT) ∧
    (s.ocean_level + 1/20 ≤ h → h ≤ s.mountain_level → t < s.cold_thresh →
      s.dry_thresh ≤ p → classifyBiome s h t p = BiomeType.TUNDRA) ∧
    (s.ocean_level + 1/20 ≤ h → h ≤ s.mountain_level → s.cold_thresh ≤ t →
      t < s.temperate_thresh → p < s.dry_thresh →
      classifyBiome s h t p = BiomeType.GRASSLAND) ∧
    (s.ocean_level + 1/20 ≤ h → h ≤ s.mountain_level → s.cold_thresh ≤ t →
      t < s.temperate_thresh → s.dry_thresh ≤ p → p < s.wet_thresh →
      classifyBiome s h t p = BiomeType.TEMPERATE_FOREST) ∧
    (s.ocean_level + 1/20 ≤ h → h ≤ s.mountain_level → s.cold_thresh ≤ t →
      t < s.temperate_thresh → s.dry_thresh ≤ p → s.wet_thresh ≤ p →
      classifyBiome s h t p = BiomeType.TEMPERATE_RAINFOREST) ∧
    (s.ocean_level + 1/20 ≤ h → h ≤ s.mountain_level → s.cold_thresh ≤ t →
      s.temperate_thresh ≤ t →
      p < s.dry_thresh → classifyBiome s h t p = BiomeType.DESERT) ∧
    (s.ocean_level + 1/20 ≤ h → h ≤ s.mountain_level → s.cold_thresh ≤ t →
      s.temperate_thresh ≤ t → s.dry_thresh ≤ p → p < s.wet_thresh →
      classifyBiome s h t p = BiomeType.SAVANNA) ∧
    (s.ocean_level + 1/20 ≤ h → h ≤ s.mountain_level → s.cold_thresh ≤ t →
      s.temperate_thresh ≤ t → s.dry_thresh ≤ p → s.wet_thresh ≤ p →
      classifyBiome s h t p = BiomeType.TROPICAL_RAINFOREST) := by
  have hmem : ∀ b : BiomeType, b ∈
      [BiomeType.OCEAN, BiomeType.SHALLOW_OCEAN, BiomeType.BEACH, BiomeType.TUNDRA,
       BiomeType.COLD_DESERT, BiomeType.GRASSLAND, BiomeType.TEMPERATE_FOREST,
       BiomeType.TEMPERATE_RAINFOREST, BiomeType.SAVANNA, BiomeType.DESERT,
       BiomeType.TROPICAL_RAINFOREST, BiomeType.MOUNTAIN, BiomeType.SNOW_PEAKS] := by
    intro b; cases b <;> decide
  refine ⟨hmem _, ?_, ?_, ?_, ?_, ?_, ?_, ?_, ?_, ?_, ?_, ?_, ?_, ?_⟩ <;>
    (intros; unfold classifyBiome; split_ifs <;> first | rfl | linarith)

/-- Claim C5 witness: the default settings classify a concrete deep cell as
deep ocean. -/
theorem nihilis_c5_classification_witness :
    (2/10 : ℚ) < (defaultBiomeSettings (α := ℚ)).ocean_level - 1/10 ∧
    classifyBiome (defaultBiomeSettings (α := ℚ)) (2/10) (1/2) (1/2) = BiomeType.OCEAN :=
  ⟨by norm_num [defaultBiomeSettings],
   (nihilis_c5_classification (defaultBiomeSettings (α := ℚ)) (2/10) (1/2) (1/2)).2.1
     (by norm_num [defaultBiomeSettings])⟩

/-- Claim C6 (code bug): the discovery mask created by `WorldGenerator.generate`
(`np.ones((height, width), dtype=bool)`) holds `True` in every cell — i.e. it
is NOT the all-false mask the specification and the code's own comment
describe. -/
theorem nihilis_c6_discovery_mask (height width y x : ℕ) :
    discoveryMaskInit height width y x = true := rfl

/-- Claim C7 counterexample: a settings bundle with seed 42 does not survive
the save/load round trip — `save_template` omits the seed from the persisted
dictionary, so loading yields `seed = None`. -/
theorem nihilis_c7_counterexample :
    (loadTemplateDict (saveTemplateDict "rugged" "a test recipe"
      (⟨256, 256, 6, 1/2, 2, 100, 12/10, 4/10, 3/10, some 42,
        some ⟨50000, 5/100, 4, 3/10, 3/10, 1/100, 1/100⟩⟩ : TerrainSettings ℚ))).settings ≠
    (⟨256, 256, 6, 1/2, 2, 100, 12/10, 4/10, 3/10, some 42,
      some ⟨50000, 5/100, 4, 3/10, 3/10, 1/100, 1/100⟩⟩ : TerrainSettings ℚ) := by
  intro hcontra
  have hseed := congrArg TerrainSettings.seed hcontra
  simp [loadTemplateDict, saveTemplateDict] at hseed

/-- Claim C7 amended: the template round trip reproduces the name, the
description, and every settings field — including the erosion sub-bundle or
its absence — except `seed`, which is not persisted and loads back as `None`. -/
theorem nihilis_c7_roundtrip_amended (name description : String)
    (s : TerrainSettings ℚ) :
    loadTemplateDict (saveTemplateDict name description s) =
      ⟨name, description,
       { s with seed := none }⟩ := rfl

theorem titleGo_length (b : Bool) (l : List Char) : (titleGo b l).length = l.length := by
  induction l generalizing b with
  | nil => rfl
  | cons c rest ih =>
    unfold titleGo
    by_cases hc : c.isAlpha <;> simp [hc, ih]

theorem pyTitle_length (s : String) : (pyTitle s).length = s.length := by
  cases s with
  | mk data => exact titleGo_length false data

theorem genLoop_ok_length (drawF : ℕ → ℕ → ℚ) (model : NameModel ℚ)
    (order minLength maxLength : ℕ) (hml : minLength ≤ maxLength) :
    ∀ (fuel : ℕ) (name : String) (r : Rng) (nm : String) (r1 : Rng),
      genLoop drawF model order minLength maxLength fuel name r = NameOutcome.ok nm r1 →
      minLength ≤ nm.length := by
  intro fuel
  induction fuel with
  | zero => intro name r nm r1 hg; simp [genLoop] at hg
  | succ n ih =>
    intro name r nm r1 hg
    rw [genLoop] at hg
    rcases hal : alookup model (name.takeRight order) with _ | dist
    · rw [hal] at hg; simp at hg
    · rw [hal] at hg
      simp only at hg
      split_ifs at hg with hbreak1 hbreak2
      · obtain ⟨hnm, _⟩ := NameOutcome.ok.inj hg
        rw [← hnm, pyTitle_length]
        exact hbreak1.2
      · obtain ⟨hnm, _⟩ := NameOutcome.ok.inj hg
        rw [← hnm, pyTitle_length]
        exact le_trans hml hbreak2
      · exact ih _ _ _ _ hg

set_option maxRecDepth 100000 in
/-- Claim C10 counterexample: a call with `min_length = max_length = 3` (so
`min_length ≤ max_length`) returns the name "A  B", whose stripped length is
4 > `max_length`: the two sampled interior spaces were absorbed by `strip()`
while the accumulated stripped length was still below `min_length`, and the
final character jumped the stripped length straight past the bound. -/
theorem nihilis_c10_counterexample :
    (3 : ℕ) ≤ 3 ∧
    generateName drawPicksAB corpusModelAB "empire" none "settlement" 3 3 10 ⟨0, 0⟩ =
      NameOutcome.ok "A  B" ⟨0, 4⟩ ∧
    ¬ (("A  B" : String).length ≤ 3) := by
  refine ⟨le_refl 3, ?_, by decide⟩
  with_unfolding_all decide

/-- Claim C10 amended: for every call to `generate_name` with
`min_length ≤ max_length` that returns normally, the returned (stripped) name
has length at least `min_length`; the upper bound by `max_length` does NOT hold
in general — the loop only guarantees the stripped length was below
`max_length` before the final character was appended, and sampled spaces
absorbed as interior whitespace can carry the final length past it. -/
theorem nihilis_c10_amended (drawF : ℕ → ℕ → ℚ) (models : NameModels ℚ)
    (epoch : String) (culture : Option String) (nameType : String)
    (minLength maxLength fuel : ℕ) (r : Rng) (nm : String) (r1 : Rng)
    (hml : minLength ≤ maxLength)
    (hok : generateName drawF models epoch culture nameType minLength maxLength fuel r =
      NameOutcome.ok nm r1) :
    minLength ≤ nm.length := by
  simp only [generateName] at hok
  revert hok
  generalize resolveModel models _ = modelOpt
  cases modelOpt with
  | none => intro hok; simp [runNameModel] at hok
  | some model =>
    intro hok
    simp only [runNameModel] at hok
    exact genLoop_ok_length drawF model _ minLength maxLength hml fuel _ r nm r1 hok

/-- Claim C10 amended, witness: the counterexample run still satisfies the
lower bound. -/
theorem nihilis_c10_amended_witness : (3 : ℕ) ≤ ("A  B" : String).length :=
  nihilis_c10_amended drawPicksAB corpusModelAB "empire" none "settlement" 3 3 10
    ⟨0, 0⟩ "A  B" ⟨0, 4⟩ (le_refl 3) (by with_unfolding_all decide)

/-- Claim C9: `Settlement.generate_name` never propagates a name-generation
failure — whenever the underlying `generate_name` raises (`KeyError` from a
missing context, or `ValueError` when neither the requested model key nor the
default model is usable), the settlement receives the deterministic per-type
fallback name from the fixed table, and the call returns normally. -/
theorem nihilis_c9_name_fallback (drawF : ℕ → ℕ → ℚ) (models : NameModels ℚ)
    (stlType : SettlementType) (fuel : ℕ) (r r1 : Rng)
    (herr : generateName drawF models "empire" none (nameTypeMapping stlType) 3 12 fuel r
        = NameOutcome.keyErr r1 ∨
      generateName drawF models "empire" none (nameTypeMapping stlType) 3 12 fuel r
        = NameOutcome.valErr r1) :
    settlementGenerateName drawF models stlType fuel r = some (fallbackNames stlType, r1) := by
  unfold settlementGenerateName
  rcases herr with hcase | hcase <;> rw [hcase]

/-- Claim C2 counterexample: height redistribution does not keep the elevation
field inside `[0,1]` — the in-range input 1 (the top of the normalized noise
range) lands in the mountain band, whose 1.2 multiplier sends it to 1.07, and
no clamp follows. -/
theorem nihilis_c2_counterexample : 1 < redistributeHeight 1 := by
  have hone : ((1 : ℝ) + 1) * (5/10) = 1 := by norm_num
  simp only [redistributeHeight, hone, Real.one_rpow]
  norm_num

/-- Claim C2 amended: the temperature field is clipped into `[0, 1.2]` and the
precipitation field into `[0, 1]` by their final `np.clip` calls, for every
cell and every input; the elevation field, however, is only guaranteed to lie
in `[0, 1.07]` after height redistribution (for normalized inputs in
`[-1, 1]`) — the mountain band's 1.2 multiplier can push values above 1 and no
clamping is applied. -/
theorem nihilis_c2_amended :
    (∀ (normalFam : ℕ → ℕ → ℝ) (height width : ℕ) (seed : Option ℕ)
      (entropy i j : ℕ),
      0 ≤ temperatureMap normalFam height width seed entropy i j ∧
      temperatureMap normalFam height width seed entropy i j ≤ 12/10) ∧
    (∀ (normalFam : ℕ → ℕ → ℝ) (distEdtF : (ℕ → ℕ → Bool) → Grid ℝ)
      (gradF : Grid ℝ → Grid ℝ × Grid ℝ) (s : BiomeSettings ℝ) (hm : Grid ℝ)
      (height width : ℕ) (seed : Option ℕ) (entropy y x : ℕ),
      0 ≤ precipitationMap normalFam distEdtF gradF s hm height width seed entropy y x ∧
      precipitationMap normalFam distEdtF gradF s hm height width seed entropy y x ≤ 1) ∧
    (∀ hv : ℝ, -1 ≤ hv → hv ≤ 1 →
      0 ≤ redistributeHeight hv ∧ redistributeHeight hv ≤ 107/100) := by
  refine ⟨?_, ?_, ?_⟩
  · intro normalFam height width seed entropy i j
    simp only [temperatureMap]
    exact ⟨le_min (le_max_right _ _) (by norm_num), min_le_right _ _⟩
  · intro normalFam distEdtF gradF s hm height width seed entropy y x
    simp only [precipitationMap]
    exact ⟨le_min (le_max_right _ _) (by norm_num), min_le_right _ _⟩
  · intro hv h1 h2
    have hs0 : 0 ≤ (hv + 1) * (5/10 : ℝ) := by nlinarith
    have hs1 : (hv + 1) * (5/10 : ℝ) ≤ 1 := by nlinarith
    have hp0 : 0 ≤ ((hv + 1) * (5/10 : ℝ)) ^ (1.1 : ℝ) := Real.rpow_nonneg hs0 _
    have hp1 : ((hv + 1) * (5/10 : ℝ)) ^ (1.1 : ℝ) ≤ 1 :=
      Real.rpow_le_one hs0 hs1 (by norm_num)
    simp only [redistributeHeight]
    split_ifs <;> constructor <;> nlinarith [hp0, hp1]

/-- Claim C2 amended, witness: the bounds at concrete in-range inputs. -/
theorem nihilis_c2_amended_witness :
    (-1 : ℝ) ≤ 0 ∧ (0 : ℝ) ≤ 1 ∧
    (0 ≤ redistributeHeight 0 ∧ redistributeHeight 0 ≤ 107/100) ∧
    (0 ≤ temperatureMap (fun _ _ => 0) 2 2 none 0 0 0 ∧
      temperatureMap (fun _ _ => 0) 2 2 none 0 0 0 ≤ 12/10) :=
  ⟨by norm_num, by norm_num,
   nihilis_c2_amended.2.2 0 (by norm_num) (by norm_num),
   nihilis_c2_amended.1 (fun _ _ => 0) 2 2 none 0 0 0⟩

/-- Claim C9 witness: with no models loaded, a capital's name generation fails
with the `ValueError` path and the fallback "Capital City" is substituted. -/
theorem nihilis_c9_name_fallback_witness :
    settlementGenerateName (fun _ _ => (0 : ℚ)) [] SettlementType.CAPITAL 0 ⟨0, 0⟩ =
      some ("Capital City", ⟨0, 0⟩) :=
  nihilis_c9_name_fallback (fun _ _ => (0 : ℚ)) [] SettlementType.CAPITAL 0 ⟨0, 0⟩ ⟨0, 0⟩
    (Or.inr (by with_unfolding_all decide))

theorem isValidPosition_sep {α : Type} [LinearOrderedField α] (hm : Grid α)
    (pos : ℕ × ℕ) (stlType : SettlementType) (existing : List (Settlement α))
    (hv : isValidPosition hm pos stlType existing = true) :
    ∀ s ∈ existing,
      (max (minSettlementDistance stlType : ℤ) (minSettlementDistance s.type : ℤ)) ^ 2 ≤
        ((pos.1 : ℤ) - (s.position.1 : ℤ)) ^ 2 + ((pos.2 : ℤ) - (s.position.2 : ℤ)) ^ 2 := by
  intro s hs
  unfold isValidPosition at hv
  split_ifs at hv
  have := List.all_eq_true.mp hv s hs
  simpa using this

theorem separatedSq_symm {α : Type} (s1 s2 : Settlement α) (h : separatedSq s1 s2) :
    separatedSq s2 s1 := by
  unfold separatedSq at h ⊢
  rw [max_comm,
    show ((s2.position.1 : ℤ) - (s1.position.1 : ℤ)) ^ 2 +
        ((s2.position.2 : ℤ) - (s1.position.2 : ℤ)) ^ 2 =
      ((s1.position.1 : ℤ) - (s2.position.1 : ℤ)) ^ 2 +
        ((s1.position.2 : ℤ) - (s2.position.2 : ℤ)) ^ 2 from by ring]
  exact h

theorem wellSeparated_append {α : Type} (l : List (Settlement α)) (snew : Settlement α)
    (hl : wellSeparated l) (hnew : ∀ s ∈ l, separatedSq snew s) :
    wellSeparated (l ++ [snew]) := by
  intro s1 h1 s2 h2 hne
  simp only [List.mem_append, List.mem_singleton] at h1 h2
  rcases h1 with h1 | h1 <;> rcases h2 with h2 | h2
  · exact hl s1 h1 s2 h2 hne
  · subst h2; exact separatedSq_symm _ _ (hnew s1 h1)
  · subst h1; exact hnew s2 h2
  · subst h1; subst h2; exact absurd rfl hne

theorem placeOne_wellSeparated {α : Type} [LinearOrderedField α] [FloorRing α]
    (ctx : PlacementCtx α) (hm : Grid α) (stlType : SettlementType) :
    ∀ (fuel : ℕ) (st st1 : PlaceState α) (b : Bool),
      wellSeparated st.stls →
      placeOne ctx hm stlType fuel st = some (st1, b) →
      wellSeparated st1.stls := by
  intro fuel
  induction fuel with
  | zero =>
    intro st st1 b hw hp
    simp only [placeOne, Option.some.injEq, Prod.mk.injEq] at hp
    rw [← hp.1]
    exact hw
  | succ n ih =>
    intro st st1 b hw hp
    simp only [placeOne] at hp
    split at hp
    · refine ih _ _ _ ?_ hp
      exact hw
    · split at hp
      · split at hp
        · simp at hp
        · rename_i hempty hvalid xv nmv r2v heqname
          simp only [Option.some.injEq, Prod.mk.injEq] at hp
          obtain ⟨hst, hb⟩ := hp
          rw [← hst]
          refine wellSeparated_append _ _ hw ?_
          intro s hs
          exact isValidPosition_sep hm _ stlType st.stls hvalid s hs
      · refine ih _ _ _ ?_ hp
        exact hw

theorem placeCount_wellSeparated {α : Type} [LinearOrderedField α] [FloorRing α]
    (ctx : PlacementCtx α) (hm : Grid α) (stlType : SettlementType) :
    ∀ (k : ℕ) (st st1 : PlaceState α),
      wellSeparated st.stls →
      placeCount ctx hm stlType k st = some st1 →
      wellSeparated st1.stls := by
  intro k
  induction k with
  | zero =>
    intro st st1 hw hp
    simp only [placeCount, Option.some.injEq] at hp
    rw [← hp]
    exact hw
  | succ n ih =>
    intro st st1 hw hp
    simp only [placeCount] at hp
    split at hp
    · simp at hp
    · rename_i stA heqA
      refine ih _ _ ?_ hp
      exact placeOne_wellSeparated ctx hm stlType _ _ _ _ hw heqA
    · rename_i stA heqA
      rw [← Option.some.inj hp]
      exact placeOne_wellSeparated ctx hm stlType _ _ _ _ hw heqA

theorem placeAllTypes_wellSeparated {α : Type} [LinearOrderedField α] [FloorRing α]
    (ctx : PlacementCtx α) (hm : Grid α) (baseHab : Grid α) :
    ∀ (lst : List (SettlementType × ℕ)) (stls : List (Settlement α)) (rng : Rng)
      (out : List (Settlement α) × Rng),
      wellSeparated stls →
      placeAllTypes ctx hm baseHab lst stls rng = some out →
      wellSeparated out.1 := by
  intro lst
  induction lst with
  | nil =>
    intro stls rng out hw hp
    simp only [placeAllTypes, Option.some.injEq] at hp
    rw [← hp]
    exact hw
  | cons tc rest ih =>
    intro stls rng out hw hp
    rcases tc with ⟨t, c⟩
    simp only [placeAllTypes] at hp
    split at hp
    · simp at hp
    · rename_i stA heqA
      refine ih _ _ _ ?_ hp
      exact placeCount_wellSeparated ctx hm t c _ _ hw heqA

theorem generateSettlements_wellSeparated {α : Type} [LinearOrderedField α] [FloorRing α]
    (ctx : PlacementCtx α) (hm : Grid α) (biomeMap : Grid BiomeType)
    (n1 n2 n3 n4 n5 n6 n7 n8 : ℕ) (rng0 : Rng) (stls : List (Settlement α)) (rOut : Rng)
    (hgen : generateSettlements ctx hm biomeMap n1 n2 n3 n4 n5 n6 n7 n8 rng0 =
      some (stls, rOut)) :
    wellSeparated stls ∧ rOut = rng0 := by
  simp only [generateSettlements] at hgen
  cases hres : placeAllTypes ctx hm
      (calcHabitability ctx.expF ctx.distEdtF hm ctx.rows ctx.cols)
      (settlementCounts n1 n2 n3 n4 n5 n6 n7 n8) [] rng0 with
  | none => rw [hres] at hgen; simp at hgen
  | some pr =>
    rw [hres] at hgen
    simp only [Option.map_some', Option.some.injEq, Prod.mk.injEq] at hgen
    obtain ⟨hstls, hrng⟩ := hgen
    refine ⟨?_, hrng.symm⟩
    rw [← hstls]
    exact placeAllTypes_wellSeparated ctx hm _ _ [] rng0 pr (by intro s hs; cases hs) hres

/-- Claim C4: every pair of distinct settlements accepted by
`generate_settlements` is at Euclidean distance at least the larger of the two
types' minimum separations — every accepted candidate passed
`_is_valid_position` against all previously placed settlements, and the
check is symmetric. -/
theorem nihilis_c4_separation (ctx : PlacementCtx ℚ) (hm : Grid ℚ)
    (biomeMap : Grid BiomeType) (n1 n2 n3 n4 n5 n6 n7 n8 : ℕ) (rng0 : Rng)
    (stls : List (Settlement ℚ)) (rOut : Rng)
    (hgen : generateSettlements ctx hm biomeMap n1 n2 n3 n4 n5 n6 n7 n8 rng0 =
      some (stls, rOut))
    (s1 s2 : Settlement ℚ) (h1 : s1 ∈ stls) (h2 : s2 ∈ stls) (hne : s1 ≠ s2) :
    (max (minSettlementDistance s1.type) (minSettlementDistance s2.type) : ℝ) ≤
      Real.sqrt (((s1.position.1 : ℝ) - (s2.position.1 : ℝ)) ^ 2 +
        ((s1.position.2 : ℝ) - (s2.position.2 : ℝ)) ^ 2) := by
  have hws := (generateSettlements_wellSeparated ctx hm biomeMap
    n1 n2 n3 n4 n5 n6 n7 n8 rng0 stls rOut hgen).1
  have hsq := hws s1 h1 s2 h2 hne
  unfold separatedSq at hsq
  rw [Real.le_sqrt (by positivity)]
  · push_cast at hsq ⊢
    exact_mod_cast hsq
  · positivity

/-- Claim C4 witness: the two villages of the concrete 1 × 6 strip run are
exactly five cells apart, meeting the distance-5 bound for villages. -/
theorem nihilis_c4_separation_witness :
    (max (minSettlementDistance SettlementType.VILLAGE)
        (minSettlementDistance SettlementType.VILLAGE) : ℝ) ≤
      Real.sqrt ((((0 : ℕ) : ℝ) - ((0 : ℕ) : ℝ)) ^ 2 +
        (((0 : ℕ) : ℝ) - ((5 : ℕ) : ℝ)) ^ 2) :=
  nihilis_c4_separation villageStripCtx villageStripHeightmap grasslandEverywhere
    0 0 0 2 0 0 0 0 ⟨0, 0⟩ villageStripResult ⟨0, 0⟩
    (by with_unfolding_all decide)
    ⟨SettlementType.VILLAGE, (0, 0), "Village", 0, 1⟩
    ⟨SettlementType.VILLAGE, (0, 5), "Village", 0, mkRat 1 5⟩
    (by with_unfolding_all decide) (by with_unfolding_all decide)
    (by with_unfolding_all decide)

/-- Claim C8: `generate_settlements` snapshots the shared generator's state
before any sampling and restores it before returning, so the settlement list
is produced without perturbing the random sequence later callers observe. -/
theorem nihilis_c8_rng_restore (ctx : PlacementCtx ℚ) (hm : Grid ℚ)
    (biomeMap : Grid BiomeType) (n1 n2 n3 n4 n5 n6 n7 n8 : ℕ) (rng0 : Rng)
    (stls : List (Settlement ℚ)) (rOut : Rng)
    (hgen : generateSettlements ctx hm biomeMap n1 n2 n3 n4 n5 n6 n7 n8 rng0 =
      some (stls, rOut)) :
    rOut = rng0 :=
  (generateSettlements_wellSeparated ctx hm biomeMap
    n1 n2 n3 n4 n5 n6 n7 n8 rng0 stls rOut hgen).2

/-- Claim C8 witness: the 1 × 6 strip run consumes draws for two placements
yet returns the generator in its incoming state. -/
theorem nihilis_c8_rng_restore_witness : (⟨0, 0⟩ : Rng) = ⟨0, 0⟩ :=
  nihilis_c8_rng_restore villageStripCtx villageStripHeightmap grasslandEverywhere
    0 0 0 2 0 0 0 0 ⟨0, 0⟩ villageStripResult ⟨0, 0⟩
    (by with_unfolding_all decide)

/-- Claim C1: world generation is deterministic in the seed — `generate`
resets the main, terrain and biome generators from the fixed seed before any
draw, so two calls with identical settings return identical worlds (elevation,
climate-derived biome grids, the discovery mask, and the ordered settlement
list with positions, types and names) regardless of the incoming generator
states; and `generate_heightmap` re-seeds its stream as its first action, so
its output does not depend on the state left by previous invocations. -/
theorem nihilis_c1_determinism (uniformFam randFam normalFam mainDrawF : ℕ → ℕ → ℝ)
    (gaussianF : Grid ℝ → Grid ℝ) (gradF : Grid ℝ → Grid ℝ × Grid ℝ)
    (distEdtF : (ℕ → ℕ → Bool) → Grid ℝ) (percentileF : Grid ℝ → ℤ → ℝ)
    (bs : BiomeSettings ℝ) (models : NameModels ℝ) (nameFuel : ℕ)
    (ws : WorldSettingsR) (st1 st2 : GenState) :
    worldGenerate uniformFam randFam normalFam mainDrawF gaussianF gradF distEdtF
        percentileF bs models nameFuel ws st1 =
      worldGenerate uniformFam randFam normalFam mainDrawF gaussianF gradF distEdtF
        percentileF bs models nameFuel ws st2 ∧
    (∀ (ts : TerrainSettings ℝ) (sd entropy1 entropy2 : ℕ) (r1 r2 : Rng),
      ts.seed = some sd →
      generateHeightmap uniformFam gaussianF gradF ts entropy1 r1 =
        generateHeightmap uniformFam gaussianF gradF ts entropy2 r2) := by
  refine ⟨rfl, ?_⟩
  intro ts sd entropy1 entropy2 r1 r2 hseed
  simp [generateHeightmap, hseed]

/-- Claim C1 witness: with a fixed seed, two heightmap invocations from
different incoming generator states and entropy pools agree. -/
theorem nihilis_c1_determinism_witness :
    seededTerrainSettings.seed = some 9 ∧
    generateHeightmap (fun _ _ => 0) id (fun g => (g, g)) seededTerrainSettings 0 ⟨0, 0⟩ =
      generateHeightmap (fun _ _ => 0) id (fun g => (g, g)) seededTerrainSettings 1 ⟨5, 7⟩ :=
  ⟨rfl,
   (nihilis_c1_determinism (fun _ _ => 0) (fun _ _ => 0) (fun _ _ => 0) (fun _ _ => 0)
      id (fun g => (g, g)) (fun _ => fun _ _ => 0) (fun _ _ => 0)
      defaultBiomeSettings [] 0 seededWorldSettings
      ⟨⟨0, 0⟩, ⟨0, 0⟩, ⟨0, 0⟩⟩ ⟨⟨1, 1⟩, ⟨1, 1⟩, ⟨1, 1⟩⟩).2
     seededTerrainSettings 9 0 1 ⟨0, 0⟩ ⟨5, 7⟩ rfl⟩

end Nihilis
